import Mathlib

/-!
Shallow embedding of the real-time 3D navigation and spatial-selection
subsystem of the oncology-intelligence point-cloud visualization.

The embedding follows the TypeScript source:
* the Zustand store (`lib/store.ts`): filter / selection / comparison /
  view state and their update actions;
* the visualization component (`ClusterVisualization`): the Scene term
  filter, the navigation-mode toggles, `CameraController`, `FlyControls`
  and `AutoPilot`.

Numbers are modelled as exact rationals (`ℚ`); JavaScript floating-point
literals such as `0.08` become the exact rationals they denote (`8/100`).
Values produced through `Math.sqrt` are modelled in `ℝ` via `Real.sqrt`.
JavaScript `String.prototype.toLowerCase` is modelled by an ASCII-faithful
character-wise lowercase map.
-/

namespace OncoViz

/-- Vector of three rational coordinates (a `THREE.Vector3` holding data or
camera coordinates). -/
structure Vec3 where
  x : ℚ
  y : ℚ
  z : ℚ
deriving DecidableEq

/-- Vector of three real coordinates, used for the store's `ViewState`
camera fields, whose values may pass through `Math.sqrt`. -/
structure Vec3R where
  x : ℝ
  y : ℝ
  z : ℝ

/-- Coercion of a rational vector into a real one. -/
def Vec3.toR (v : Vec3) : Vec3R := ⟨(v.x : ℝ), (v.y : ℝ), (v.z : ℝ)⟩

/-- JavaScript `q || 0` on a number: `0` stays `0`, anything else is kept.
On (non-NaN) numbers this is the identity; it is spelled out to mirror the
source's `cluster.x || 0` guards. -/
def jsOr0 (q : ℚ) : ℚ := if q = 0 then 0 else q

/-- JavaScript `s.toLowerCase()`, modelled as a character-wise ASCII
lowercase map. -/
def jsToLower (s : String) : String := ⟨s.data.map Char.toLower⟩

/-- Substring test `hay.includes needle` on character lists: does `needle`
occur as a prefix of `hay`? -/
def listStarts : List Char → List Char → Bool
  | _, [] => true
  | [], _ :: _ => false
  | a :: as, b :: bs => (a == b) && listStarts as bs

/-- Helper for `strIncludes`: scan the haystack left to right. -/
def includesAux (needle : List Char) : List Char → Bool
  | [] => needle.isEmpty
  | c :: rest => listStarts (c :: rest) needle || includesAux needle rest

/-- JavaScript `hay.includes(needle)` substring test. -/
def strIncludes (hay needle : String) : Bool := includesAux needle.data hay.data

/-- `Cluster` record from `lib/api.ts` (fields used by the navigation and
selection logic). -/
structure Cluster where
  id : ℕ
  name : String
  x : ℚ
  y : ℚ
  z : ℚ
deriving DecidableEq

/-- `Term` record from `lib/api.ts` (fields used by the navigation and
selection logic); `subcategory` and `clusterId` are optional. -/
structure Term where
  id : ℕ
  term : String
  category : String
  subcategory : Option String
  x : ℚ
  y : ℚ
  z : ℚ
  clusterId : Option ℕ
deriving DecidableEq

/-- `FilterState` from `lib/store.ts` (the `dateRange` field, unused by the
modelled actions, is carried as an opaque optional pair). -/
structure FilterState where
  category : Option String
  clusterId : Option ℕ
  searchQuery : String
  dateRange : Option (ℚ × ℚ)
  geoCode : String
deriving DecidableEq

/-- `SelectionState` from `lib/store.ts`. -/
structure SelectionState where
  selectedCluster : Option Cluster
  selectedTerm : Option Term
  hoveredTerm : Option Term
deriving DecidableEq

/-- `ComparisonState` from `lib/store.ts`. -/
structure ComparisonState where
  clusterA : Option Cluster
  clusterB : Option Cluster
deriving DecidableEq

/-- `ViewState` from `lib/store.ts`; camera fields are real-valued because
category focus writes `Math.sqrt`-derived quantities into them. -/
structure ViewState where
  cameraPosition : Vec3R
  cameraTarget : Vec3R
  showLabels : Bool
  showPosts : Bool
  showConnections : Bool
  pointSize : ℚ

/-- The slice of the Zustand `AppState` store that the navigation and
selection actions read and write (data-loading bookkeeping fields are not
modelled). -/
structure AppState where
  clusters : List Cluster
  terms : List Term
  filters : FilterState
  selection : SelectionState
  comparison : ComparisonState
  view : ViewState

/-- `initialFilters` from `lib/store.ts`. -/
def initialFilters : FilterState :=
  { category := none, clusterId := none, searchQuery := "", dateRange := none, geoCode := "US" }

/-- `initialSelection` from `lib/store.ts`. -/
def initialSelection : SelectionState :=
  { selectedCluster := none, selectedTerm := none, hoveredTerm := none }

/-- `initialComparison` from `lib/store.ts`. -/
def initialComparison : ComparisonState := { clusterA := none, clusterB := none }

/-- `initialView` from `lib/store.ts`. -/
def initialView : ViewState :=
  { cameraPosition := ⟨0, 0, 15⟩, cameraTarget := ⟨0, 0, 0⟩,
    showLabels := true, showPosts := true, showConnections := false, pointSize := 1 }

/-- The store's initial state, with a given data load. -/
def initialAppState (clusters : List Cluster) (terms : List Term) : AppState :=
  { clusters := clusters, terms := terms, filters := initialFilters,
    selection := initialSelection, comparison := initialComparison, view := initialView }

/-- Store action `selectCluster`: sets `selectedCluster` and clears
`selectedTerm`. -/
def selectCluster (s : AppState) (cluster : Option Cluster) : AppState :=
  { s with selection :=
      { s.selection with selectedCluster := cluster, selectedTerm := none } }

/-- Store action `selectTerm`: sets `selectedTerm` (and, in the source,
touches nothing else in the selection). -/
def selectTerm (s : AppState) (term : Option Term) : AppState :=
  { s with selection := { s.selection with selectedTerm := term } }

/-- Store action `setHoveredTerm`: sets `hoveredTerm` only. -/
def setHoveredTerm (s : AppState) (term : Option Term) : AppState :=
  { s with selection := { s.selection with hoveredTerm := term } }

/-- The `selectionAndView` record shared by every branch of
`setComparisonCluster`: select the cluster for the detail panel and move
the camera onto its centroid. -/
def comparisonSelectionAndView (s : AppState) (cluster : Cluster) :
    SelectionState × ViewState :=
  ({ s.selection with selectedCluster := some cluster, selectedTerm := none },
   { s.view with
      cameraTarget := ⟨(jsOr0 cluster.x : ℝ), (jsOr0 cluster.y : ℝ), (jsOr0 cluster.z : ℝ)⟩,
      cameraPosition := ⟨(jsOr0 cluster.x : ℝ), (jsOr0 cluster.y : ℝ), ((jsOr0 cluster.z : ℝ) + 5)⟩ })

/-- Store action `setComparisonCluster`, the pairwise group-comparison
transition. The branches compare by `id` (`clusterA?.id === cluster.id`),
and every branch also applies `comparisonSelectionAndView`. -/
def setComparisonCluster (s : AppState) (cluster : Cluster) : AppState :=
  let sv := comparisonSelectionAndView s cluster
  if s.comparison.clusterA.map Cluster.id = some cluster.id then
    -- Click A again → clear comparison
    { s with comparison := initialComparison, selection := sv.1, view := sv.2 }
  else if s.comparison.clusterB.map Cluster.id = some cluster.id then
    -- Click B again → deselect B, keep A
    { s with comparison := { s.comparison with clusterB := none },
             selection := sv.1, view := sv.2 }
  else if s.comparison.clusterA = none then
    -- No A yet → set A
    { s with comparison := { clusterA := some cluster, clusterB := none },
             selection := sv.1, view := sv.2 }
  else
    -- A exists, clicking different → set/replace B
    { s with comparison := { s.comparison with clusterB := some cluster },
             selection := sv.1, view := sv.2 }

/-- Store action `clearComparison`. -/
def clearComparison (s : AppState) : AppState := { s with comparison := initialComparison }

/-- Folding a sequence of comparison clicks over the store. -/
def clickSeq (s : AppState) (cs : List Cluster) : AppState := cs.foldl setComparisonCluster s

/-- Store action `selectAndFocusTerm`: sets `selectedTerm`, clears
`selectedCluster`, and focuses the camera on the term. -/
def selectAndFocusTerm (s : AppState) (term : Term) : AppState :=
  { s with
    selection := { s.selection with selectedTerm := some term, selectedCluster := none },
    view := { s.view with
      cameraTarget := ⟨(jsOr0 term.x : ℝ), (jsOr0 term.y : ℝ), (jsOr0 term.z : ℝ)⟩,
      cameraPosition := ⟨(jsOr0 term.x : ℝ), ((jsOr0 term.y : ℝ) + 1), ((jsOr0 term.z : ℝ) + 4)⟩ } }

/-- Store action `selectAndFocusCluster`: sets `selectedCluster`, clears
`selectedTerm`, sets the `clusterId` filter to the cluster's id, and
focuses the camera on the cluster. -/
def selectAndFocusCluster (s : AppState) (cluster : Cluster) : AppState :=
  { s with
    selection := { s.selection with selectedCluster := some cluster, selectedTerm := none },
    filters := { s.filters with clusterId := some cluster.id },
    view := { s.view with
      cameraTarget := ⟨(jsOr0 cluster.x : ℝ), (jsOr0 cluster.y : ℝ), (jsOr0 cluster.z : ℝ)⟩,
      cameraPosition := ⟨(jsOr0 cluster.x : ℝ), (jsOr0 cluster.y : ℝ), ((jsOr0 cluster.z : ℝ) + 5)⟩ } }

/-- Exact-category matches: `state.terms.filter(t => t.category === category)`. -/
def matchesCategoryExact (category : String) (ts : List Term) : List Term :=
  ts.filter fun t => t.category == category

/-- Case-insensitive category matches:
`state.terms.filter(t => t.category?.toLowerCase() === category.toLowerCase())`. -/
def matchesCategoryCI (category : String) (ts : List Term) : List Term :=
  ts.filter fun t => jsToLower t.category == jsToLower category

/-- The `categoryTerms` resolution in `focusOnCategory`: exact match first,
falling back to the case-insensitive match when the exact one is empty. -/
def categoryTerms (category : String) (ts : List Term) : List Term :=
  let exact := matchesCategoryExact category ts
  if exact.isEmpty then matchesCategoryCI category ts else exact

/-- `termsWithCoords`: drop terms sitting at the sentinel coordinate
`(0,0,0)` (`t.x !== 0 || t.y !== 0 || t.z !== 0`). -/
def termsWithCoords (ts : List Term) : List Term :=
  ts.filter fun t => !(t.x == 0 && t.y == 0 && t.z == 0)

/-- The `validTerms` choice in `focusOnCategory`: the coordinate-bearing
matches when there are any, otherwise all matches. -/
def validTermsOf (ts : List Term) : List Term :=
  if (termsWithCoords ts).isEmpty then ts else termsWithCoords ts

/-- Arithmetic-mean centroid of a term list, component-wise, with the
source's `(t.x || 0)` guards (`sum / length`; the empty list yields `0`
through rational division by zero, but the source only evaluates this on
nonempty lists). -/
def meanOf (ts : List Term) : Vec3 :=
  ⟨((ts.map fun t => jsOr0 t.x).sum) / ts.length,
   ((ts.map fun t => jsOr0 t.y).sum) / ts.length,
   ((ts.map fun t => jsOr0 t.z).sum) / ts.length⟩

/-- Squared Euclidean distance of a term (with `|| 0` coordinate guards)
from a centre point. -/
def termDistSq (t : Term) (c : Vec3) : ℚ :=
  (jsOr0 t.x - c.x) ^ 2 + (jsOr0 t.y - c.y) ^ 2 + (jsOr0 t.z - c.z) ^ 2

/-- The `distances` list of `focusOnCategory`: Euclidean distance of each
valid term from the centroid (`Math.sqrt` modelled by `Real.sqrt`). -/
noncomputable def distancesFrom (c : Vec3) (ts : List Term) : List ℝ :=
  ts.map fun t => Real.sqrt ((termDistSq t c : ℚ) : ℝ)

/-- JavaScript `Math.max(...list)` with an explicit default for the empty
list (the source guards with `distances.length > 0 ? ... : dflt`). -/
noncomputable def jsMaxList (l : List ℝ) (dflt : ℝ) : ℝ :=
  match l with
  | [] => dflt
  | x :: xs => xs.foldl max x

/-- Character-code sum used as the per-label hash:
`category.split('').reduce((a, c) => a + c.charCodeAt(0), 0)`. -/
def labelHash (s : String) : ℕ := (s.data.map Char.toNat).sum

/-- Store action `focusOnCategory` from `lib/store.ts`: resolve the
matching terms, and either just record the category filter (zero matches)
or move the camera to the matches' centroid with a spread-proportional
zoom distance and a per-label jitter. -/
noncomputable def focusOnCategory (s : AppState) (category : String) : AppState :=
  let cats := categoryTerms category s.terms
  if cats.isEmpty then
    -- Just set the filter even if no terms found
    { s with filters := { s.filters with category := some category } }
  else
    let validTerms := validTermsOf cats
    let center := meanOf validTerms
    let maxDist := jsMaxList (distancesFrom center validTerms) 5
    let zoomDistance := max (maxDist * (3 / 2)) 5
    let categoryHash := labelHash category
    let offsetX : ℚ := (categoryHash % 10 : ℕ) * (3 / 10) - 3 / 2
    let offsetY : ℚ := ((categoryHash * 7) % 10 : ℕ) * (3 / 10) - 3 / 2
    { s with
      filters := { s.filters with category := some category },
      selection := { s.selection with selectedCluster := none, selectedTerm := none },
      view := { s.view with
        cameraTarget := center.toR,
        cameraPosition :=
          ⟨(center.x : ℝ) + (offsetX : ℝ),
           (center.y : ℝ) + zoomDistance * (3 / 10) + (offsetY : ℝ),
           (center.z : ℝ) + zoomDistance⟩ } }

/-- The Scene component's visible-terms memo: apply the search-query
filter, then the category filter, then the cluster filter, each guarded by
JavaScript truthiness of the corresponding filter value. -/
def sceneVisibleTerms (fs : FilterState) (allTerms : List Term) : List Term :=
  let f1 :=
    if fs.searchQuery ≠ "" then
      allTerms.filter fun t =>
        strIncludes (jsToLower t.term) (jsToLower fs.searchQuery) ||
        (t.category ≠ "" && strIncludes (jsToLower t.category) (jsToLower fs.searchQuery))
    else allTerms
  let f2 :=
    match fs.category with
    | some c =>
        if c ≠ "" then f1.filter fun t => jsToLower t.category == jsToLower c else f1
    | none => f1
  match fs.clusterId with
  | some cid => if cid ≠ 0 then f2.filter fun t => t.clusterId == some cid else f2
  | none => f2

/-- Mode flags of `ClusterVisualization`: `floatMode` (Fly) and
`autoPilot`; both start `false` (Orbit). -/
structure NavState where
  floatMode : Bool
  autoPilot : Bool
deriving DecidableEq

/-- Initial navigation mode: neither Fly nor AutoPilot. -/
def initialNav : NavState := ⟨false, false⟩

/-- `toggleFloatMode`: flip `floatMode` and force `autoPilot` off. -/
def toggleFloatMode (s : NavState) : NavState := ⟨!s.floatMode, false⟩

/-- `toggleAutoPilot`: flip `autoPilot` and force `floatMode` off. -/
def toggleAutoPilot (s : NavState) : NavState := ⟨false, !s.autoPilot⟩

/-- A user toggle event on the navigation mode buttons. -/
inductive NavEvent
  | fly
  | auto
deriving DecidableEq

/-- Apply one toggle event. -/
def navStep (s : NavState) : NavEvent → NavState
  | .fly => toggleFloatMode s
  | .auto => toggleAutoPilot s

/-- Run a sequence of toggle events from the initial (Orbit) state. -/
def navRun (evs : List NavEvent) : NavState := evs.foldl navStep initialNav

/-- OrbitControls are mounted exactly when neither Fly nor AutoPilot is
active (`!floatMode && !autoPilot`). -/
def orbitEnabled (s : NavState) : Bool := !s.floatMode && !s.autoPilot

/-- `THREE.Vector3.lerp`: move each component of `p` toward `t` by the
fraction `k` (`p += (t - p) * k`). -/
def lerp (p t : Vec3) (k : ℚ) : Vec3 :=
  ⟨p.x + (t.x - p.x) * k, p.y + (t.y - p.y) * k, p.z + (t.z - p.z) * k⟩

/-- Squared Euclidean distance between two rational vectors. Comparisons
`distanceTo < ε` in the source are modelled as `distSq < ε ^ 2`, which is
equivalent because both sides are nonnegative. -/
def distSq (p t : Vec3) : ℚ :=
  (t.x - p.x) ^ 2 + (t.y - p.y) ^ 2 + (t.z - p.z) ^ 2

/-- Component-wise vector sum (`THREE.Vector3.add`). -/
def Vec3.add (v w : Vec3) : Vec3 := ⟨v.x + w.x, v.y + w.y, v.z + w.z⟩

/-- Scalar multiple (`THREE.Vector3.multiplyScalar`). -/
def Vec3.smul (k : ℚ) (v : Vec3) : Vec3 := ⟨k * v.x, k * v.y, k * v.z⟩

/-- Euclidean norm of a rational vector, in `ℝ` (`THREE.Vector3.length`). -/
noncomputable def vecNorm (v : Vec3) : ℝ :=
  Real.sqrt (((v.x ^ 2 + v.y ^ 2 + v.z ^ 2 : ℚ) : ℝ))

/-- `CameraController`'s per-frame state: the camera position and the
`isAnimatingRef` flag. -/
structure CamState where
  pos : Vec3
  animating : Bool
deriving DecidableEq

/-- Smoothing factor of `CameraController` (`camera.position.lerp(_, 0.08)`). -/
def camK : ℚ := 8 / 100

/-- Completion threshold of `CameraController`
(`camera.position.distanceTo(target) < 0.1`). -/
def camEps : ℚ := 1 / 10

/-- One `useFrame` tick of `CameraController` toward a fixed `target` with
smoothing factor `k`: while animating, lerp toward the target and mark the
animation complete once the distance falls below `camEps`; once complete
(or before any focus request) the tick is a no-op. The source's
`floatMode` guard is handled by the callers (the tick is simply not run
while Fly or AutoPilot owns the camera). -/
def camTick (target : Vec3) (k : ℚ) (s : CamState) : CamState :=
  if s.animating then
    let p := lerp s.pos target k
    { pos := p, animating := !decide (distSq p target < camEps ^ 2) }
  else s

/-- Movement speed constant of `FlyControls` (`speed = 0.15`). -/
def flySpeed : ℚ := 15 / 100

/-- Damping constant of `FlyControls` (`damping = 0.92`). -/
def flyDamping : ℚ := 92 / 100

/-- One `useFrame` tick of the `FlyControls` velocity update with a fixed
(already rotated) unit movement direction `dir`: accumulate `dir * speed`
into the velocity, then damp unconditionally
(`velocity.add(direction.multiplyScalar(speed)); velocity.multiplyScalar(damping)`). -/
def flyTick (dir v : Vec3) : Vec3 :=
  Vec3.smul flyDamping (Vec3.add v (Vec3.smul flySpeed dir))

/-- The world-space movement direction with only the `forward` flag held
and an identity camera orientation: `(0, 0, -1)`, already of unit length
so `normalize()` leaves it unchanged. -/
def forwardDir : Vec3 := ⟨0, 0, -1⟩

/-- Velocity vector after `n` fly ticks with only `forward` held, starting
from rest. -/
def flyVelVec : ℕ → Vec3
  | 0 => ⟨0, 0, 0⟩
  | n + 1 => flyTick forwardDir (flyVelVec n)

/-- Scalar forward-speed recurrence of the fly ticks:
`v' = (v + speed) * damping`, starting from rest. -/
def flyVel : ℕ → ℚ
  | 0 => 0
  | n + 1 => (flyVel n + flySpeed) * flyDamping

/-- Centroid of a term list as used by `AutoPilot`
(`terms.forEach(t => center.add(...)); center.divideScalar(terms.length)`;
no `|| 0` guards here). -/
def centroidOf (ts : List Term) : Vec3 :=
  ⟨(ts.map Term.x).sum / ts.length,
   (ts.map Term.y).sum / ts.length,
   (ts.map Term.z).sum / ts.length⟩

/-- Number of sampled tour waypoints:
`Math.min(12, Math.max(8, Math.floor(terms.length / 10)))`. -/
def numWaypoints (n : ℕ) : ℕ := min 12 (max 8 (n / 10))

/-- JavaScript `Math.min(...list)` on a nonempty list (the source only
evaluates this with at least 3 terms; the empty case yields `0`). -/
def qMinList : List ℚ → ℚ
  | [] => 0
  | x :: xs => xs.foldl min x

/-- JavaScript `Math.max(...list)` on a nonempty list (empty case `0`,
never hit by the source). -/
def qMaxList : List ℚ → ℚ
  | [] => 0
  | x :: xs => xs.foldl max x

/-- The randomized offset added to the `i`-th sampled waypoint, drawn from
a stream `rand` of `Math.random()` results consumed three at a time:
`((r−0.5)·1.5, (r−0.5)·1.5+0.5, r·2+1)`; the `z` component is the forward
bias, always at least `1`. -/
def jitterVec (rand : ℕ → ℚ) (i : ℕ) : Vec3 :=
  ⟨(rand (3 * i) - 1 / 2) * (3 / 2),
   (rand (3 * i + 1) - 1 / 2) * (3 / 2) + 1 / 2,
   rand (3 * i + 2) * 2 + 1⟩

/-- The 8–12 sampled waypoints: for each `i < n`, read `shuffled[i]` and
add the randomized offset. Reading past the end of `shuffled` (which the
source does whenever fewer than `n` terms exist, raising a `TypeError` on
`undefined`) is modelled as `none`. -/
def sampledWaypoints (shuffled : List Term) (rand : ℕ → ℚ) (n : ℕ) :
    Option (List Vec3) :=
  (List.range n).mapM fun i =>
    (shuffled.get? i).map fun t =>
      ⟨t.x + (jitterVec rand i).x, t.y + (jitterVec rand i).y, t.z + (jitterVec rand i).z⟩

/-- The `AutoPilot` waypoint-generation effect body for a point set `ts`
(the source shuffles `ts` into `shuffled` with a `Math.random()` sort
comparator; the shuffle is passed in as a parameter): a pulled-back start
view over the centroid, the sampled jittered waypoints, three sweeping
bounding-box moves, and a pulled-back reveal. `none` models the
`TypeError` thrown when the sample loop reads past `shuffled`. -/
def buildWaypoints (ts shuffled : List Term) (rand : ℕ → ℚ) : Option (List Vec3) :=
  let center := centroidOf ts
  (sampledWaypoints shuffled rand (numWaypoints ts.length)).map fun sampled =>
    [Vec3.mk center.x (center.y + 3) (center.z + 12)] ++ sampled ++
    [Vec3.mk (qMinList (ts.map Term.x) - 1) (center.y + 2) (qMaxList (ts.map Term.z) + 3),
     Vec3.mk (qMaxList (ts.map Term.x) + 1) (qMaxList (ts.map Term.y) + 1) center.z,
     Vec3.mk center.x (qMinList (ts.map Term.y) - 1) (qMinList (ts.map Term.z) - 2),
     Vec3.mk (center.x + 5) (center.y + 5) (center.z + 15)]

/-- Catmull-Rom cubic on one axis:
`0.5·(2P1 + (−P0+P2)t + (2P0−5P1+4P2−P3)t² + (−P0+3P1−3P2+P3)t³)`. -/
def catmullRom (p0 p1 p2 p3 f : ℚ) : ℚ :=
  (1 / 2) * (2 * p1 + (-p0 + p2) * f + (2 * p0 - 5 * p1 + 4 * p2 - p3) * f ^ 2 +
    (-p0 + 3 * p1 - 3 * p2 + p3) * f ^ 3)

/-- Evaluate the cyclic Catmull-Rom spline over a waypoint list at global
parameter `t ∈ [0, length)`: segment index `⌊t⌋`, local fraction
`t − ⌊t⌋`, control points wrapped cyclically. -/
def splinePoint (ws : List Vec3) (t : ℚ) : Vec3 :=
  let total := ws.length
  let seg := (⌊t⌋).toNat
  let f := t - seg
  let p0 := ws.getD ((seg + total - 1) % total) ⟨0, 0, 0⟩
  let p1 := ws.getD (seg % total) ⟨0, 0, 0⟩
  let p2 := ws.getD ((seg + 1) % total) ⟨0, 0, 0⟩
  let p3 := ws.getD ((seg + 2) % total) ⟨0, 0, 0⟩
  ⟨catmullRom p0.x p1.x p2.x p3.x f,
   catmullRom p0.y p1.y p2.y p3.y f,
   catmullRom p0.z p1.z p2.z p3.z f⟩

/-- Tour speed constant of `AutoPilot` (`speed = 0.08`). -/
def tourSpeed : ℚ := 8 / 100

/-- Positional lerp factor of `AutoPilot`
(`camera.position.lerp(targetPos, 0.06)`). -/
def tourLerpK : ℚ := 6 / 100

/-- The `AutoPilot` component state: the `autoPilot` flag it receives, its
waypoint and progress refs, the stored centre, and the camera position it
steers (camera orientation is not tracked; no claim concerns it). -/
structure APSys where
  enabled : Bool
  waypoints : List Vec3
  progress : ℚ
  center : Vec3
  cam : Vec3
deriving DecidableEq

/-- The `AutoPilot` state on mount: no waypoints, zero progress, and the
Canvas default camera position `[0, 5, 18]`. -/
def apInit : APSys :=
  { enabled := false, waypoints := [], progress := 0, center := ⟨0, 0, 0⟩, cam := ⟨0, 5, 18⟩ }

/-- The waypoint-generation `useEffect`, fired on a point-set change: with
fewer than 3 terms it returns at once, retaining the previous waypoint
list; otherwise it stores the new centre and, if sampling succeeds,
installs the new waypoints and resets `progress` to `0` (a failed sample
throws after the centre write, leaving waypoints and progress as they
were). -/
def apSetTerms (s : APSys) (ts shuffled : List Term) (rand : ℕ → ℚ) : APSys :=
  if ts.length < 3 then s
  else
    match buildWaypoints ts shuffled rand with
    | some ws => { s with center := centroidOf ts, waypoints := ws, progress := 0 }
    | none => { s with center := centroidOf ts }

/-- Toggling the `autoPilot` flag as seen by the `AutoPilot` component
(its refs persist across toggles because the component stays mounted). -/
def apToggle (s : APSys) : APSys := { s with enabled := !s.enabled }

/-- One `useFrame` tick of `AutoPilot` with frame delta `delta`: a no-op
unless enabled with at least 4 waypoints; otherwise advance `progress`,
wrap it into `[0, waypointCount)`, evaluate the Catmull-Rom spline there
and lerp the camera toward the spline point. -/
def apTick (s : APSys) (delta : ℚ) : APSys :=
  if !s.enabled || s.waypoints.length < 4 then s
  else
    let progress := s.progress + delta * tourSpeed
    let total : ℚ := (s.waypoints.length : ℚ)
    let t := progress - ⌊progress / total⌋ * total
    { s with progress := progress, cam := lerp s.cam (splinePoint s.waypoints t) tourLerpK }

/-- Concrete cluster fixture G1. -/
def clG1 : Cluster := ⟨1, "G1", 1, 1, 1⟩

/-- Concrete cluster fixture G2. -/
def clG2 : Cluster := ⟨2, "G2", -1, 2, 0⟩

/-- Concrete cluster fixture G3. -/
def clG3 : Cluster := ⟨3, "G3", 4, 0, 2⟩

/-- Concrete term fixture. -/
def tmFlt3 : Term := ⟨1, "flt3", "leukemia", none, 1, 2, 3, some 1⟩

/-- A store state with three clusters loaded and nothing selected. -/
def emptyState : AppState := initialAppState [clG1, clG2, clG3] []

/-- Placeholder term used as the `getD` default when reading the shuffled
list (never returned on in-range reads). -/
def dfltTerm : Term := ⟨0, "", "", none, 0, 0, 0, none⟩

/-- The `i`-th sampled waypoint when the read is in range: the shuffled
term's position plus the randomized offset. -/
def sampleAt (shuffled : List Term) (rand : ℕ → ℚ) (i : ℕ) : Vec3 :=
  ⟨(shuffled.getD i dfltTerm).x + (jitterVec rand i).x,
   (shuffled.getD i dfltTerm).y + (jitterVec rand i).y,
   (shuffled.getD i dfltTerm).z + (jitterVec rand i).z⟩

/-- A term fixture constructor for the tour tests. -/
def mkTm (i : ℕ) (x y z : ℚ) : Term := ⟨i, "t", "cat", none, x, y, z, none⟩

/-- Two-point fixture (below the tour threshold). -/
def twoTerms : List Term := [mkTm 1 1 1 1, mkTm 2 2 2 2]

/-- Three-point fixture (enough for the tour guard, too few for the
sample loop). -/
def threeTerms : List Term := [mkTm 1 0 0 0, mkTm 2 1 0 0, mkTm 3 2 1 1]

/-- Ten-point fixture with the `i`-th term at `(i, i, i)`. -/
def tenTerms : List Term :=
  [mkTm 1 1 1 1, mkTm 2 2 2 2, mkTm 3 3 3 3, mkTm 4 4 4 4, mkTm 5 5 5 5,
   mkTm 6 6 6 6, mkTm 7 7 7 7, mkTm 8 8 8 8, mkTm 9 9 9 9, mkTm 10 10 10 10]

/-- A deterministic `Math.random()` stream returning `0.5` forever. -/
def halfStream : ℕ → ℚ := fun _ => 1 / 2

/-- Iterated `AutoPilot` frame ticks with a fixed delta. -/
def apTicks (δ : ℚ) : ℕ → APSys → APSys
  | 0, s => s
  | n + 1, s => apTicks δ n (apTick s δ)

/-- The horizontal per-label jitter of `focusOnCategory`
(`(hash % 10) * 0.3 - 1.5`). -/
def categoryOffsetX (cat : String) : ℚ := ((labelHash cat % 10 : ℕ) : ℚ) * (3 / 10) - 3 / 2

/-- The vertical per-label jitter of `focusOnCategory`
(`((hash * 7) % 10) * 0.3 - 1.5`). -/
def categoryOffsetY (cat : String) : ℚ := ((labelHash cat * 7 % 10 : ℕ) : ℚ) * (3 / 10) - 3 / 2

/-- The `maxDist` quantity of `focusOnCategory`: the largest Euclidean
distance of a valid matching term from the matches' centroid, with the
default `5` on an empty distance list. -/
noncomputable def categoryMaxDist (s : AppState) (cat : String) : ℝ :=
  jsMaxList
    (distancesFrom (meanOf (validTermsOf (categoryTerms cat s.terms)))
      (validTermsOf (categoryTerms cat s.terms))) 5

/-- The `zoomDistance` quantity of `focusOnCategory`:
`Math.max(maxDist * 1.5, 5)`. -/
noncomputable def categoryZoom (s : AppState) (cat : String) : ℝ :=
  max (categoryMaxDist s cat * (3 / 2)) 5

/-- Scenario fixture: a matching term at the sentinel coordinate. -/
def tmSent : Term := ⟨1, "flt3", "leukemia", none, 0, 0, 0, none⟩

/-- Scenario fixture: a matching term at `(2, 0, 0)`. -/
def tmAway : Term := ⟨2, "aml", "leukemia", none, 2, 0, 0, none⟩

/-- A store whose two leukemia terms sit at `(0,0,0)` and `(2,0,0)`. -/
def sMixed : AppState := initialAppState [] [tmSent, tmAway]

/-- Scenario A fixture: matching term at `(1, 1, 1)`. -/
def tmL1 : Term := ⟨1, "cml", "leukemia", none, 1, 1, 1, none⟩

/-- Scenario A fixture: matching term at `(3, 1, 1)`. -/
def tmL2 : Term := ⟨2, "aml2", "leukemia", none, 3, 1, 1, none⟩

/-- Scenario A fixture: non-matching term. -/
def tmO1 : Term := ⟨3, "braf", "other", none, 5, 5, 5, none⟩

/-- Scenario A fixture: non-matching term. -/
def tmO2 : Term := ⟨4, "kras", "other", none, 6, 6, 6, none⟩

/-- Scenario A fixture: non-matching term. -/
def tmO3 : Term := ⟨5, "tp53", "other", none, 7, 7, 7, none⟩

/-- Scenario A store: five points, two of which match "leukemia". -/
def scenarioA : AppState := initialAppState [] [tmL1, tmL2, tmO1, tmO2, tmO3]

/-- A store with a single sarcoma term, matching no leukemia request. -/
def sNoMatch : AppState := initialAppState [] [⟨1, "ewing", "sarcoma", none, 1, 0, 0, none⟩]

/-- A cluster fixture with id `0`, which JavaScript truthiness treats as
unset in the Scene's `if (filters.clusterId)` guard. -/
def clZero : Cluster := ⟨0, "c0", 0, 0, 0⟩

/-- A term fixture belonging to cluster `1`. -/
def tmZ : Term := ⟨1, "braf2", "melanoma", none, 1, 1, 1, some 1⟩

/-- A store holding the id-`0` cluster and one term of cluster `1`. -/
def sZero : AppState := initialAppState [clZero] [tmZ]

/-- C1: the comparison transition follows the four-case table exactly on
every state — clicking the current A clears both, clicking the current B
clears B, clicking with no A sets A, and otherwise the click replaces B —
and from the empty state the click sequences A, B, A and A, B, C end in
`(null, null)` and `(A, C)` respectively; clicking the group already held
as A is an ordinary defined transition. -/
theorem setComparisonCluster_transition (s s₀ : AppState) (g a b c : Cluster)
    (hab : a.id ≠ b.id) (hac : a.id ≠ c.id) (hbc : b.id ≠ c.id)
    (h₀ : s₀.comparison = ⟨none, none⟩) :
    ((setComparisonCluster s g).comparison =
      if s.comparison.clusterA.map Cluster.id = some g.id then ⟨none, none⟩
      else if s.comparison.clusterB.map Cluster.id = some g.id then
        ⟨s.comparison.clusterA, none⟩
      else if s.comparison.clusterA = none then ⟨some g, none⟩
      else ⟨s.comparison.clusterA, some g⟩) ∧
    (clickSeq s₀ [a, b, a]).comparison = ⟨none, none⟩ ∧
    (clickSeq s₀ [a, b, c]).comparison = ⟨some a, some c⟩ := by
  refine ⟨?_, ?_, ?_⟩
  · unfold setComparisonCluster
    split_ifs with h1 h2 h3 <;> simp [initialComparison]
  · simp [clickSeq, setComparisonCluster, h₀, initialComparison, hab, Ne.symm hab]
  · simp [clickSeq, setComparisonCluster, h₀, initialComparison, hab, Ne.symm hab,
      hac, Ne.symm hac, hbc, Ne.symm hbc]

/-- Witness for the comparison transition theorem at concrete clusters. -/
theorem setComparisonCluster_transition_witness :
    clG1.id ≠ clG2.id ∧ clG1.id ≠ clG3.id ∧ clG2.id ≠ clG3.id ∧
    emptyState.comparison = ⟨none, none⟩ ∧
    (clickSeq emptyState [clG1, clG2, clG1]).comparison = ⟨none, none⟩ ∧
    (clickSeq emptyState [clG1, clG2, clG3]).comparison = ⟨some clG1, some clG3⟩ := by
  refine ⟨by decide, by decide, by decide, rfl, ?_, ?_⟩
  · exact (setComparisonCluster_transition emptyState emptyState clG1 clG1 clG2 clG3
      (by decide) (by decide) (by decide) rfl).2.1
  · exact (setComparisonCluster_transition emptyState emptyState clG1 clG1 clG2 clG3
      (by decide) (by decide) (by decide) rfl).2.2

/-- C2 counterexample: `selectTerm` does not clear `selectedCluster`, so
selecting cluster G1 and then term flt3 leaves both selected at once,
refuting the claimed invariant that at most one of the two is non-null in
every reachable selection state. -/
theorem selectTerm_keeps_cluster_counterexample :
    ((selectTerm (selectCluster emptyState (some clG1)) (some tmFlt3)).selection.selectedCluster
      = some clG1) ∧
    ((selectTerm (selectCluster emptyState (some clG1)) (some tmFlt3)).selection.selectedTerm
      = some tmFlt3) :=
  ⟨rfl, rfl⟩

/-- C2 amended: `selectCluster` sets the cluster and clears the term;
`setHoveredTerm` touches neither selection field; `selectTerm` sets the
term but leaves `selectedCluster` unchanged — only the combined
`selectAndFocusTerm` action clears the cluster when a term is picked. -/
theorem selection_single_selection_amended (s : AppState) (oc : Option Cluster)
    (ot : Option Term) (t : Term) :
    (selectCluster s oc).selection.selectedCluster = oc ∧
    (selectCluster s oc).selection.selectedTerm = none ∧
    (selectCluster s oc).selection.hoveredTerm = s.selection.hoveredTerm ∧
    (selectTerm s ot).selection.selectedTerm = ot ∧
    (selectTerm s ot).selection.selectedCluster = s.selection.selectedCluster ∧
    (setHoveredTerm s ot).selection.selectedTerm = s.selection.selectedTerm ∧
    (setHoveredTerm s ot).selection.selectedCluster = s.selection.selectedCluster ∧
    (selectAndFocusTerm s t).selection.selectedTerm = some t ∧
    (selectAndFocusTerm s t).selection.selectedCluster = none :=
  ⟨rfl, rfl, rfl, rfl, rfl, rfl, rfl, rfl, rfl⟩

/-- Mode exclusivity is preserved by every toggle step. -/
theorem navStep_exclusive (s : NavState) (e : NavEvent) :
    (navStep s e).floatMode = false ∨ (navStep s e).autoPilot = false := by
  cases e <;> simp [navStep, toggleFloatMode, toggleAutoPilot]

/-- Mode exclusivity holds along every toggle sequence from the start. -/
theorem navRun_exclusive (evs : List NavEvent) :
    (navRun evs).floatMode = false ∨ (navRun evs).autoPilot = false := by
  unfold navRun
  induction evs using List.reverseRecOn with
  | nil => exact Or.inl rfl
  | append_singleton evs e _ =>
      rw [List.foldl_append]
      exact navStep_exclusive _ e

/-- C3: in every state reachable by toggle sequences from the initial
state at most one of Fly and AutoPilot is on; `toggleFloatMode` flips Fly
and forces AutoPilot off, `toggleAutoPilot` is symmetric, and the
OrbitControls are mounted exactly when both flags are off. -/
theorem nav_mode_exclusivity (evs : List NavEvent) (s : NavState) :
    (¬((navRun evs).floatMode = true ∧ (navRun evs).autoPilot = true)) ∧
    toggleFloatMode s = ⟨!s.floatMode, false⟩ ∧
    toggleAutoPilot s = ⟨false, !s.autoPilot⟩ ∧
    (orbitEnabled s = true ↔ (s.floatMode = false ∧ s.autoPilot = false)) := by
  refine ⟨?_, rfl, rfl, ?_⟩
  · rcases navRun_exclusive evs with h | h <;> simp [h]
  · simp [orbitEnabled]

/-- C4: while animating, a `CameraController` tick maps the position to
`position + (target − position) * k`; the squared distance to the target
scales by `(1−k)²` each tick, hence strictly decreases whenever it is
still at least `ε²`; the displacement to the target keeps its direction
(never overshoots, each component scaling by the positive factor `1−k`);
the tick marks the animation complete exactly when the new distance drops
below `ε`; and a completed animation holds the position steady. -/
theorem camera_controller_seek (p t : Vec3) (k : ℚ)
    (hk0 : 0 < k) (hk1 : k < 1) (hfar : camEps ^ 2 ≤ distSq p t) :
    camTick t k ⟨p, false⟩ = ⟨p, false⟩ ∧
    (camTick t k ⟨p, true⟩).pos =
      ⟨p.x + (t.x - p.x) * k, p.y + (t.y - p.y) * k, p.z + (t.z - p.z) * k⟩ ∧
    ((camTick t k ⟨p, true⟩).animating = false ↔ distSq (lerp p t k) t < camEps ^ 2) ∧
    distSq (lerp p t k) t = (1 - k) ^ 2 * distSq p t ∧
    distSq (lerp p t k) t < distSq p t ∧
    t.x - (lerp p t k).x = (1 - k) * (t.x - p.x) ∧
    t.y - (lerp p t k).y = (1 - k) * (t.y - p.y) ∧
    t.z - (lerp p t k).z = (1 - k) * (t.z - p.z) ∧
    0 < 1 - k := by
  have hscale : distSq (lerp p t k) t = (1 - k) ^ 2 * distSq p t := by
    simp only [distSq, lerp]
    ring
  have hpos : 0 < distSq p t := lt_of_lt_of_le (by norm_num [camEps]) hfar
  refine ⟨by simp [camTick], by simp [camTick, lerp], by simp [camTick], hscale, ?_, ?_, ?_, ?_, by linarith⟩
  · rw [hscale]
    have h1 : (1 - k) ^ 2 < 1 := by nlinarith
    calc (1 - k) ^ 2 * distSq p t < 1 * distSq p t :=
          mul_lt_mul_of_pos_right h1 hpos
      _ = distSq p t := one_mul _
  · simp only [lerp]; ring
  · simp only [lerp]; ring
  · simp only [lerp]; ring

/-- Witness for the camera seek theorem at the source constants
`k = 0.08`, `ε = 0.1` and a concrete pose one unit from its target. -/
theorem camera_controller_seek_witness :
    (0 < camK ∧ camK < 1 ∧ camEps ^ 2 ≤ distSq ⟨0, 0, 0⟩ ⟨1, 0, 0⟩) ∧
    distSq (lerp ⟨0, 0, 0⟩ ⟨1, 0, 0⟩ camK) ⟨1, 0, 0⟩ =
      (1 - camK) ^ 2 * distSq ⟨0, 0, 0⟩ ⟨1, 0, 0⟩ ∧
    distSq (lerp ⟨0, 0, 0⟩ ⟨1, 0, 0⟩ camK) ⟨1, 0, 0⟩ < distSq ⟨0, 0, 0⟩ ⟨1, 0, 0⟩ ∧
    camTick ⟨1, 0, 0⟩ camK ⟨⟨0, 0, 0⟩, false⟩ = ⟨⟨0, 0, 0⟩, false⟩ := by
  have h := camera_controller_seek ⟨0, 0, 0⟩ ⟨1, 0, 0⟩ camK
    (by norm_num [camK]) (by norm_num [camK]) (by norm_num [camEps, distSq])
  exact ⟨⟨by norm_num [camK], by norm_num [camK], by norm_num [camEps, distSq]⟩,
    h.2.2.2.1, h.2.2.2.2.1, h.1⟩

/-- The fly velocity recurrence stays nonnegative. -/
theorem flyVel_nonneg (n : ℕ) : 0 ≤ flyVel n := by
  induction n with
  | zero => simp [flyVel]
  | succ n ih =>
      show 0 ≤ (flyVel n + flySpeed) * flyDamping
      have h1 : (0 : ℚ) ≤ flyVel n + flySpeed := by
        have hs : (0 : ℚ) ≤ flySpeed := by norm_num [flySpeed]
        linarith
      have h2 : (0 : ℚ) ≤ flyDamping := by norm_num [flyDamping]
      exact mul_nonneg h1 h2

/-- The fly velocity recurrence never exceeds its fixed point
`damping · speed / (1 − damping) = 69/40`. -/
theorem flyVel_le (n : ℕ) : flyVel n ≤ 69 / 40 := by
  induction n with
  | zero => norm_num [flyVel]
  | succ n ih =>
      have : (flyVel n + flySpeed) * flyDamping ≤ (69 / 40 + 15 / 100) * (92 / 100) := by
        rw [flySpeed, flyDamping]
        have h0 := flyVel_nonneg n
        nlinarith
      calc flyVel (n + 1) = (flyVel n + flySpeed) * flyDamping := rfl
        _ ≤ (69 / 40 + 15 / 100) * (92 / 100) := this
        _ = 69 / 40 := by norm_num

/-- With only `forward` held and an identity orientation, the fly velocity
vector points along `−z` with magnitude given by the scalar recurrence. -/
theorem flyVelVec_eq (n : ℕ) : flyVelVec n = ⟨0, 0, -(flyVel n)⟩ := by
  induction n with
  | zero => simp [flyVelVec, flyVel]
  | succ n ih =>
      simp only [flyVelVec, flyVel, ih, flyTick, forwardDir, Vec3.add, Vec3.smul, Vec3.mk.injEq]
      refine ⟨by ring, by ring, by ring⟩

/-- Closed form of the fly velocity recurrence. -/
theorem flyVel_closed (n : ℕ) : flyVel n = (69 / 40) * (1 - (92 / 100) ^ n) := by
  induction n with
  | zero => simp [flyVel]
  | succ n ih =>
      show (flyVel n + flySpeed) * flyDamping = _
      rw [ih, flySpeed, flyDamping, pow_succ]
      ring

/-- The real-valued magnitude of the fly velocity after `n` ticks equals
the scalar recurrence. -/
theorem vecNorm_flyVelVec (n : ℕ) : vecNorm (flyVelVec n) = ((flyVel n : ℚ) : ℝ) := by
  rw [flyVelVec_eq]
  have h : ((0 : ℚ) ^ 2 + 0 ^ 2 + (-(flyVel n)) ^ 2 : ℚ) = (flyVel n) ^ 2 := by ring
  rw [vecNorm]
  push_cast [h]
  rw [Real.sqrt_sq_eq_abs, abs_of_nonneg (by exact_mod_cast flyVel_nonneg n)]

/-- C5 counterexample: after 50 forward fly ticks the velocity magnitude
is still about 9% below `s/(1−d) = 1.875`, far outside the claimed 1%
band, because the code damps after adding and so converges to
`d·s/(1−d) = 1.725` instead. -/
theorem fly_fifty_ticks_counterexample :
    ¬(|vecNorm (flyVelVec 50) - ((flySpeed / (1 - flyDamping) : ℚ) : ℝ)| ≤
        ((flySpeed / (1 - flyDamping) : ℚ) : ℝ) / 100) := by
  rw [vecNorm_flyVelVec]
  have hle := flyVel_le 50
  have hsteady : (flySpeed / (1 - flyDamping) : ℚ) = 15 / 8 := by
    norm_num [flySpeed, flyDamping]
  rw [hsteady]
  rw [show ((15 / 8 : ℚ) : ℝ) = (15 / 8 : ℝ) by norm_num]
  have hleR : ((flyVel 50 : ℚ) : ℝ) ≤ (69 / 40 : ℝ) := by
    have h := (Rat.cast_le (K := ℝ)).mpr hle
    push_cast at h
    exact h
  rw [abs_sub_comm,
    abs_of_nonneg (by linarith : (0 : ℝ) ≤ 15 / 8 - ((flyVel 50 : ℚ) : ℝ))]
  intro hcon
  linarith

/-- C5 amended: the fly tick damps after adding the drive term, so the
steady state of the velocity recurrence is `d·s/(1−d) = 1.725`; after 50
forward ticks the velocity magnitude is within 2% of that steady state
(about 1.5% below it), though still outside the 1% band. -/
theorem fly_fifty_ticks_amended :
    vecNorm (flyVelVec 50) = ((flyVel 50 : ℚ) : ℝ) ∧
    flyDamping * flySpeed / (1 - flyDamping) = 69 / 40 ∧
    |flyVel 50 - flyDamping * flySpeed / (1 - flyDamping)| ≤
      (2 / 100) * (flyDamping * flySpeed / (1 - flyDamping)) ∧
    (1 / 100) * (flyDamping * flySpeed / (1 - flyDamping)) <
      |flyVel 50 - flyDamping * flySpeed / (1 - flyDamping)| := by
  have hst : flyDamping * flySpeed / (1 - flyDamping) = (69 / 40 : ℚ) := by
    norm_num [flySpeed, flyDamping]
  have habs : |flyVel 50 - flyDamping * flySpeed / (1 - flyDamping)| =
      (69 / 40) * (92 / 100) ^ 50 := by
    rw [hst, flyVel_closed]
    rw [show (69 / 40 : ℚ) * (1 - (92 / 100) ^ 50) - 69 / 40 = -((69 / 40) * (92 / 100) ^ 50) by ring]
    rw [abs_neg, abs_of_nonneg (by positivity)]
  refine ⟨vecNorm_flyVelVec 50, hst, ?_, ?_⟩
  · rw [habs, hst]
    have hpow : ((92 : ℚ) / 100) ^ 50 ≤ 1 / 50 := by norm_num
    nlinarith
  · rw [habs, hst]
    have hpow : (1 / 100 : ℚ) < ((92 : ℚ) / 100) ^ 50 := by norm_num
    nlinarith

/-- Mapping an option-valued function that succeeds everywhere over a list
collects exactly the mapped values. -/
theorem mapM_eq_some_map {α β : Type} (g : α → Option β) (f : α → β) :
    ∀ l : List α, (∀ a ∈ l, g a = some (f a)) → l.mapM g = some (l.map f) := by
  intro l
  induction l with
  | nil => intro _; rfl
  | cons a l ih =>
      intro h
      rw [List.mapM_cons, h a (List.mem_cons_self a l),
        ih (fun b hb => h b (List.mem_cons_of_mem a hb))]
      rfl

/-- When the sample count fits inside the shuffled list, sampling succeeds
and returns the pointwise `sampleAt` values. -/
theorem sampledWaypoints_eq_of_le (shuffled : List Term) (rand : ℕ → ℚ) (n : ℕ)
    (h : n ≤ shuffled.length) :
    sampledWaypoints shuffled rand n =
      some ((List.range n).map (sampleAt shuffled rand)) := by
  unfold sampledWaypoints
  apply mapM_eq_some_map
  intro i hi
  have hilt : i < shuffled.length := lt_of_lt_of_le (List.mem_range.mp hi) h
  rw [List.get?_eq_get hilt]
  simp [sampleAt, List.getD_eq_getElem?_getD, List.getElem?_eq_getElem hilt]

/-- When the sample count fits inside the shuffled list, the waypoint
build succeeds with the start view, the samples, the three sweeps and the
reveal, in that order. -/
theorem buildWaypoints_eq_of_le (ts shuffled : List Term) (rand : ℕ → ℚ)
    (h : numWaypoints ts.length ≤ shuffled.length) :
    buildWaypoints ts shuffled rand =
      some ([⟨(centroidOf ts).x, (centroidOf ts).y + 3, (centroidOf ts).z + 12⟩] ++
        (List.range (numWaypoints ts.length)).map (sampleAt shuffled rand) ++
        [⟨qMinList (ts.map Term.x) - 1, (centroidOf ts).y + 2, qMaxList (ts.map Term.z) + 3⟩,
         ⟨qMaxList (ts.map Term.x) + 1, qMaxList (ts.map Term.y) + 1, (centroidOf ts).z⟩,
         ⟨(centroidOf ts).x, qMinList (ts.map Term.y) - 1, qMinList (ts.map Term.z) - 2⟩,
         ⟨(centroidOf ts).x + 5, (centroidOf ts).y + 5, (centroidOf ts).z + 15⟩]) := by
  unfold buildWaypoints
  rw [sampledWaypoints_eq_of_le shuffled rand _ h]
  rfl

/-- C6 counterexample: with 3 points the sample loop reads past the
shuffled list and the build aborts (`TypeError` in the source); with 10
points the build succeeds but its first waypoint is the pulled-back start
view, not the centroid — the centroid itself is never a waypoint — and
the list has `numWaypoints + 5 = 13` entries, not the `numWaypoints + 6`
the claimed layout implies. -/
theorem tour_waypoints_counterexample :
    buildWaypoints threeTerms threeTerms halfStream = none ∧
    centroidOf tenTerms = ⟨11 / 2, 11 / 2, 11 / 2⟩ ∧
    (buildWaypoints tenTerms tenTerms halfStream).map (fun ws => ws.head?) =
      some (some ⟨11 / 2, 11 / 2 + 3, 11 / 2 + 12⟩) ∧
    (⟨11 / 2, 11 / 2 + 3, 11 / 2 + 12⟩ : Vec3) ≠ centroidOf tenTerms ∧
    (buildWaypoints tenTerms tenTerms halfStream).map List.length = some 13 := by
  have hcent : centroidOf tenTerms = ⟨11 / 2, 11 / 2, 11 / 2⟩ := by
    simp [centroidOf, tenTerms, mkTm]
    norm_num
  have hbuild := buildWaypoints_eq_of_le tenTerms tenTerms halfStream (by decide)
  refine ⟨rfl, hcent, ?_, ?_, ?_⟩
  · rw [hbuild, hcent]
    simp
  · rw [hcent]
    intro hcon
    have := congrArg Vec3.y hcon
    norm_num at this
  · rw [hbuild]
    simp
    decide

/-- C6 amended: for a point set with at least 8 points (with 3–7 points
the sample loop reads past the shuffled list and the build aborts), the
waypoint list is, in order: a pulled-back start waypoint above/behind the
centroid, then `numWaypoints = clamp(count/10, 8, 12)` waypoints sampled
from the shuffled point set, each offset by bounded lateral jitter and a
forward bias in `[1, 3)`, then three sweep waypoints at outward-offset
bounding-box extremes, then a pulled-back end/reveal waypoint; the
centroid itself is not an element of the list. -/
theorem tour_waypoints_amended (ts shuffled : List Term) (rand : ℕ → ℚ)
    (h8 : 8 ≤ ts.length) (hlen : ts.length ≤ shuffled.length)
    (hperm : shuffled.Perm ts) (hrand : ∀ i, 0 ≤ rand i ∧ rand i < 1) :
    buildWaypoints ts shuffled rand =
      some ([⟨(centroidOf ts).x, (centroidOf ts).y + 3, (centroidOf ts).z + 12⟩] ++
        (List.range (numWaypoints ts.length)).map (sampleAt shuffled rand) ++
        [⟨qMinList (ts.map Term.x) - 1, (centroidOf ts).y + 2, qMaxList (ts.map Term.z) + 3⟩,
         ⟨qMaxList (ts.map Term.x) + 1, qMaxList (ts.map Term.y) + 1, (centroidOf ts).z⟩,
         ⟨(centroidOf ts).x, qMinList (ts.map Term.y) - 1, qMinList (ts.map Term.z) - 2⟩,
         ⟨(centroidOf ts).x + 5, (centroidOf ts).y + 5, (centroidOf ts).z + 15⟩]) ∧
    (buildWaypoints ts shuffled rand).map List.length = some (numWaypoints ts.length + 5) ∧
    8 ≤ numWaypoints ts.length ∧ numWaypoints ts.length ≤ 12 ∧
    numWaypoints ts.length = min 12 (max 8 (ts.length / 10)) ∧
    (∀ i, i < numWaypoints ts.length →
      ∃ t, t ∈ ts ∧
        sampleAt shuffled rand i =
          ⟨t.x + (jitterVec rand i).x, t.y + (jitterVec rand i).y, t.z + (jitterVec rand i).z⟩ ∧
        1 ≤ (jitterVec rand i).z ∧ (jitterVec rand i).z < 3 ∧
        |(jitterVec rand i).x| ≤ 3 / 4) := by
  have hnle : numWaypoints ts.length ≤ shuffled.length := by
    have h1 : numWaypoints ts.length ≤ max 8 (ts.length / 10) := min_le_right _ _
    have h2 : max 8 (ts.length / 10) ≤ ts.length :=
      max_le h8 (Nat.div_le_self _ _)
    exact le_trans (le_trans h1 h2) hlen
  have hbuild := buildWaypoints_eq_of_le ts shuffled rand hnle
  refine ⟨hbuild, ?_, le_min (by norm_num) (le_max_left _ _), min_le_left _ _, rfl, ?_⟩
  · rw [hbuild]
    simp [numWaypoints]
  · intro i hi
    have hilt : i < shuffled.length := lt_of_lt_of_le hi hnle
    refine ⟨shuffled.getD i dfltTerm, ?_, rfl, ?_, ?_, ?_⟩
    · have hmem : shuffled.getD i dfltTerm ∈ shuffled := by
        rw [List.getD_eq_getElem?_getD, List.getElem?_eq_getElem hilt]
        exact List.getElem_mem hilt
      exact hperm.mem_iff.mp hmem
    · have := (hrand (3 * i + 2)).1
      simp only [jitterVec]
      linarith
    · have := (hrand (3 * i + 2)).2
      simp only [jitterVec]
      linarith
    · have h0 := (hrand (3 * i)).1
      have h1 := (hrand (3 * i)).2
      simp only [jitterVec]
      rw [abs_le]
      constructor <;> linarith

/-- Witness for the amended tour waypoint theorem at the ten-point
fixture with a constant random stream. -/
theorem tour_waypoints_amended_witness :
    8 ≤ tenTerms.length ∧
    (buildWaypoints tenTerms tenTerms halfStream).map List.length =
      some (numWaypoints tenTerms.length + 5) ∧
    8 ≤ numWaypoints tenTerms.length ∧ numWaypoints tenTerms.length ≤ 12 := by
  have h := tour_waypoints_amended tenTerms tenTerms halfStream (by decide)
    (le_refl _) (List.Perm.refl _) (fun i => ⟨by norm_num [halfStream], by norm_num [halfStream]⟩)
  exact ⟨by decide, h.2.1, h.2.2.1, h.2.2.2.1⟩

/-- C7 counterexample: after waypoints are generated for a ten-point set,
dropping the point count to two leaves the whole `AutoPilot` state —
including the non-empty waypoint list — untouched, and toggling AutoPilot
off (and back) also retains the list; it is never emptied. -/
theorem autopilot_retention_counterexample :
    (apSetTerms apInit tenTerms tenTerms halfStream).waypoints ≠ [] ∧
    apSetTerms (apSetTerms apInit tenTerms tenTerms halfStream) twoTerms twoTerms halfStream
      = apSetTerms apInit tenTerms tenTerms halfStream ∧
    (apToggle (apToggle (apSetTerms apInit tenTerms tenTerms halfStream))).waypoints
      = (apSetTerms apInit tenTerms tenTerms halfStream).waypoints := by
  have hbuild := buildWaypoints_eq_of_le tenTerms tenTerms halfStream (by decide)
  refine ⟨?_, rfl, rfl⟩
  simp only [apSetTerms, hbuild]
  rw [if_neg (by decide : ¬(tenTerms.length < 3))]
  simp

/-- C7 amended: waypoints regenerate on a point-set change with at least
3 points whenever the build succeeds, and each regeneration resets
`progress` to `0`; when the point count drops below 3 the effect returns
early and the previous waypoint list is retained (not emptied), as it
also is across AutoPilot toggles; ticks leave the state unchanged while
AutoPilot is off or fewer than 4 waypoints exist; and toggling AutoPilot
on with only 2 points present (from a fresh mount) yields zero waypoints
and an unchanged camera position after 10 ticks. -/
theorem autopilot_lifecycle_amended (s s' : APSys) (ts₁ ts₂ shuffled : List Term)
    (rand : ℕ → ℚ) (δ : ℚ) (ws : List Vec3)
    (h₁ : 3 ≤ ts₁.length) (hb : buildWaypoints ts₁ shuffled rand = some ws)
    (h₂ : ts₂.length < 3)
    (hoff : s'.enabled = false ∨ s'.waypoints.length < 4) :
    (apSetTerms s ts₁ shuffled rand).waypoints = ws ∧
    (apSetTerms s ts₁ shuffled rand).progress = 0 ∧
    apSetTerms s ts₂ shuffled rand = s ∧
    (apToggle s).waypoints = s.waypoints ∧
    (apToggle s).enabled = !s.enabled ∧
    apTick s' δ = s' ∧
    (apToggle (apSetTerms apInit twoTerms twoTerms halfStream)).waypoints = [] ∧
    apTicks (1 / 60) 10 (apToggle (apSetTerms apInit twoTerms twoTerms halfStream))
      = apToggle (apSetTerms apInit twoTerms twoTerms halfStream) ∧
    (apTicks (1 / 60) 10 (apToggle (apSetTerms apInit twoTerms twoTerms halfStream))).cam
      = apInit.cam := by
  have hnot : ¬(ts₁.length < 3) := Nat.not_lt.mpr h₁
  refine ⟨?_, ?_, ?_, rfl, rfl, ?_, rfl, rfl, rfl⟩
  · simp [apSetTerms, hnot, hb]
  · simp [apSetTerms, hnot, hb]
  · simp [apSetTerms, h₂]
  · rcases hoff with h | h
    · simp [apTick, h]
    · simp [apTick, h]

/-- Witness for the AutoPilot lifecycle theorem at the concrete two- and
ten-point fixtures. -/
theorem autopilot_lifecycle_amended_witness :
    3 ≤ tenTerms.length ∧ twoTerms.length < 3 ∧
    (apSetTerms apInit tenTerms tenTerms halfStream).progress = 0 ∧
    apTick apInit (1 / 60) = apInit ∧
    (apTicks (1 / 60) 10 (apToggle (apSetTerms apInit twoTerms twoTerms halfStream))).cam
      = apInit.cam := by
  have h := autopilot_lifecycle_amended apInit apInit tenTerms twoTerms tenTerms halfStream
    (1 / 60) _ (by decide) (buildWaypoints_eq_of_le tenTerms tenTerms halfStream (by decide))
    (by decide) (Or.inl rfl)
  exact ⟨by decide, by decide, h.2.1, h.2.2.2.2.2.1, h.2.2.2.2.2.2.2.2⟩

/-- C8 counterexample: with one leukemia match at the sentinel `(0,0,0)`
and one at `(2,0,0)`, the resolved camera target is `(2,0,0)` — the mean
of the non-sentinel matches only — not the arithmetic mean `(1,0,0)` of
all matching points. -/
theorem focus_category_centroid_counterexample :
    categoryTerms "leukemia" sMixed.terms = [tmSent, tmAway] ∧
    meanOf (categoryTerms "leukemia" sMixed.terms) = ⟨1, 0, 0⟩ ∧
    (focusOnCategory sMixed "leukemia").view.cameraTarget.x = ((2 : ℚ) : ℝ) ∧
    (focusOnCategory sMixed "leukemia").view.cameraTarget.x ≠
      ((meanOf (categoryTerms "leukemia" sMixed.terms)).x : ℝ) := by
  have hcats : categoryTerms "leukemia" sMixed.terms = [tmSent, tmAway] := by decide
  have hmean : meanOf (categoryTerms "leukemia" sMixed.terms) = ⟨1, 0, 0⟩ := by
    rw [hcats]
    simp [meanOf, jsOr0, tmSent, tmAway]
  have hvalid : validTermsOf (categoryTerms "leukemia" sMixed.terms) = [tmAway] := by decide
  have htarget : (focusOnCategory sMixed "leukemia").view.cameraTarget =
      (meanOf [tmAway]).toR := by
    unfold focusOnCategory
    rw [hcats]
    simp only [List.isEmpty_cons, Bool.false_eq_true, if_false]
    rw [show validTermsOf [tmSent, tmAway] = [tmAway] from by decide]
  refine ⟨hcats, hmean, ?_, ?_⟩
  · rw [htarget]
    simp [meanOf, jsOr0, tmAway, Vec3.toR]
  · rw [htarget, hmean]
    simp [meanOf, jsOr0, tmAway, Vec3.toR]

/-- C9: a category focus request matching zero points only records the
attempted category in the filter state; the camera pose, the selection
and every other filter field are left exactly unchanged. -/
theorem focus_category_not_found (s : AppState) (cat : String)
    (h : categoryTerms cat s.terms = []) :
    focusOnCategory s cat = { s with filters := { s.filters with category := some cat } } ∧
    (focusOnCategory s cat).view = s.view ∧
    (focusOnCategory s cat).selection = s.selection ∧
    (focusOnCategory s cat).filters.category = some cat ∧
    (focusOnCategory s cat).filters.searchQuery = s.filters.searchQuery ∧
    (focusOnCategory s cat).filters.clusterId = s.filters.clusterId := by
  have hmain : focusOnCategory s cat =
      { s with filters := { s.filters with category := some cat } } := by
    unfold focusOnCategory
    rw [h]
    rfl
  rw [hmain]
  exact ⟨rfl, rfl, rfl, rfl, rfl, rfl⟩

/-- Witness for the not-found branch at a store with no leukemia terms. -/
theorem focus_category_not_found_witness :
    categoryTerms "leukemia" sNoMatch.terms = [] ∧
    focusOnCategory sNoMatch "leukemia" =
      { sNoMatch with filters := { sNoMatch.filters with category := some "leukemia" } } ∧
    (focusOnCategory sNoMatch "leukemia").view = sNoMatch.view := by
  have h := focus_category_not_found sNoMatch "leukemia" (by decide)
  exact ⟨by decide, h.1, h.2.1⟩

/-- C8 amended: for a category focus request with at least one match, the
resolved camera target is the arithmetic mean of the coordinate-valid
matches — the matches away from the sentinel `(0,0,0)`, falling back to
all matches only when every one sits at the sentinel — and the camera
pulls back by a zoom distance of at least `max(1.5 · maxDist, 5)`, where
`maxDist` is measured over the same valid matches; the request records
the category filter and clears both selections. -/
theorem focus_category_centroid_amended (s : AppState) (cat : String)
    (hne : categoryTerms cat s.terms ≠ []) :
    (focusOnCategory s cat).view.cameraTarget =
      (meanOf (validTermsOf (categoryTerms cat s.terms))).toR ∧
    (focusOnCategory s cat).filters.category = some cat ∧
    (focusOnCategory s cat).selection.selectedCluster = none ∧
    (focusOnCategory s cat).selection.selectedTerm = none ∧
    (focusOnCategory s cat).view.cameraPosition =
      ⟨((meanOf (validTermsOf (categoryTerms cat s.terms))).x : ℝ) + (categoryOffsetX cat : ℝ),
       ((meanOf (validTermsOf (categoryTerms cat s.terms))).y : ℝ) +
         categoryZoom s cat * (3 / 10) + (categoryOffsetY cat : ℝ),
       ((meanOf (validTermsOf (categoryTerms cat s.terms))).z : ℝ) + categoryZoom s cat⟩ ∧
    (5 : ℝ) ≤ categoryZoom s cat ∧
    categoryMaxDist s cat * (3 / 2) ≤ categoryZoom s cat ∧
    max (categoryMaxDist s cat * (3 / 2)) 5 ≤ categoryZoom s cat := by
  have hfalse : (categoryTerms cat s.terms).isEmpty = false := by
    cases hcc : categoryTerms cat s.terms with
    | nil => exact absurd hcc hne
    | cons a l => simp
  refine ⟨?_, ?_, ?_, ?_, ?_, le_max_right _ _, le_max_left _ _, le_refl _⟩
  all_goals simp only [focusOnCategory, hfalse, Bool.false_eq_true, if_false]
  all_goals rfl

/-- Witness for the amended category focus theorem at Scenario A: five
points, two matching "leukemia" at `(1,1,1)` and `(3,1,1)`; the resolved
centroid is `(2,1,1)` and the zoom distance is `max(1.5·1, 5) = 5`. -/
theorem focus_category_centroid_amended_witness :
    categoryTerms "leukemia" scenarioA.terms ≠ [] ∧
    (focusOnCategory scenarioA "leukemia").view.cameraTarget = (Vec3.mk 2 1 1).toR ∧
    categoryZoom scenarioA "leukemia" = 5 ∧
    (5 : ℝ) ≤ categoryZoom scenarioA "leukemia" := by
  have h := focus_category_centroid_amended scenarioA "leukemia" (by decide)
  have hvalid : validTermsOf (categoryTerms "leukemia" scenarioA.terms) = [tmL1, tmL2] := by
    decide
  have hmean2 : meanOf [tmL1, tmL2] = Vec3.mk 2 1 1 := by
    simp [meanOf, jsOr0, tmL1, tmL2]
    norm_num
  have hmean : meanOf (validTermsOf (categoryTerms "leukemia" scenarioA.terms)) =
      Vec3.mk 2 1 1 := by
    rw [hvalid]
    exact hmean2
  have hmaxd : categoryMaxDist scenarioA "leukemia" = 1 := by
    unfold categoryMaxDist
    rw [hvalid, hmean2]
    simp only [distancesFrom, termDistSq, tmL1, tmL2, List.map_cons, List.map_nil]
    norm_num [jsOr0, jsMaxList, Real.sqrt_one]
  have hzoom : categoryZoom scenarioA "leukemia" = 5 := by
    unfold categoryZoom
    rw [hmaxd]
    norm_num
  refine ⟨by decide, ?_, hzoom, hzoom ▸ le_refl _⟩
  rw [h.1, hmean]

/-- C10 counterexample: focusing the id-`0` cluster sets the cluster
filter to `0`, but the Scene's truthiness guard skips the cluster pass,
so the visible set stays the full term list instead of shrinking to the
group's members (which here are none). -/
theorem cluster_filter_zero_id_counterexample :
    (selectAndFocusCluster sZero clZero).filters.clusterId = some 0 ∧
    sceneVisibleTerms (selectAndFocusCluster sZero clZero).filters
      (selectAndFocusCluster sZero clZero).terms = [tmZ] ∧
    tmZ.clusterId ≠ some clZero.id ∧
    (selectAndFocusCluster sZero clZero).terms.filter
      (fun t => t.clusterId == some clZero.id) = [] := by
  exact ⟨rfl, rfl, by decide, by decide⟩

/-- C10 amended: `selectAndFocusCluster` — unlike `selectCluster` and
`setComparisonCluster`, which both leave the filter state untouched —
additionally sets the cluster filter to the clicked group's id; when that
id is nonzero (JavaScript truthiness) and no cluster filter was active,
the visible point set on the next render shrinks to exactly the group's
members among the previously visible terms. -/
theorem cluster_filter_amended (s : AppState) (c cl : Cluster) (oc : Option Cluster)
    (hc : c.id ≠ 0) (hnone : s.filters.clusterId = none) :
    (selectAndFocusCluster s c).filters.clusterId = some c.id ∧
    (selectCluster s oc).filters = s.filters ∧
    (setComparisonCluster s cl).filters = s.filters ∧
    sceneVisibleTerms (selectAndFocusCluster s c).filters s.terms
      = (sceneVisibleTerms s.filters s.terms).filter
          (fun t => t.clusterId == some c.id) := by
  refine ⟨rfl, rfl, ?_, ?_⟩
  · unfold setComparisonCluster
    split_ifs <;> rfl
  · simp only [sceneVisibleTerms, selectAndFocusCluster, hnone]
    simp [hc]

/-- Witness for the cluster filter theorem at a nonzero-id cluster. -/
theorem cluster_filter_amended_witness :
    clG1.id ≠ 0 ∧ sZero.filters.clusterId = none ∧
    (selectAndFocusCluster sZero clG1).filters.clusterId = some clG1.id ∧
    sceneVisibleTerms (selectAndFocusCluster sZero clG1).filters sZero.terms
      = (sceneVisibleTerms sZero.filters sZero.terms).filter
          (fun t => t.clusterId == some clG1.id) := by
  have h := cluster_filter_amended sZero clG1 clG1 none (by decide) rfl
  exact ⟨by decide, rfl, h.1, h.2.2.2⟩

end OncoViz
